import Mathlib

/-!
Shallow embedding of `src/mysql/sqlDatabase.h` (kinslayermud/kinslayer-sqlDatabase).

Modelling conventions:
- a `MYSQL_ROW` field (a `char *` that may be the null pointer) is a
  `Cell := Option String`: `none` models SQL NULL, `some s` models a
  NUL-terminated C string holding `s`;
- the libc parsers `strtol`/`strtoul`/`strtoll`/`strtoull` (base 0, LP64:
  `long` and `long long` are 64-bit) are embedded per the C standard:
  whitespace skip, optional sign, `0x`/`0` base prefixes, longest valid
  digit sequence, clamping to the representable range on overflow;
- C integer conversions (`long` to `int`, casts to `short`/`unsigned`)
  are modular wraps, as on the targeted two's-complement platform;
- code whose C++ behaviour is undefined (passing the null pointer to
  `std::string`'s constructor or to `atof`, reading an indeterminate
  variable) produces `none` in an `Option` result: no defined value;
- `float`/`double` text is read exactly into `ℚ` (IEEE rounding is not
  modelled; no claim depends on a parsed floating value);
- `mktime` is modelled as the civil-time epoch computation (the local
  time-zone offset is not modelled; no claim depends on a successfully
  parsed timestamp value).
-/

set_option autoImplicit false

namespace sql

/-- One field of a result record: `none` is SQL NULL, `some s` is the
buffered text. -/
abbrev Cell := Option String

/-- C `isspace` characters (default locale). -/
def isCSpace (c : Char) : Bool :=
  c = ' ' || c = '\t' || c = '\n' || c = Char.ofNat 11 || c = Char.ofNat 12 || c = Char.ofNat 13

/-- Drop leading whitespace, as the `strto*` and `scanf` families do. -/
def dropSpaces : List Char → List Char
  | [] => []
  | c :: cs => if isCSpace c then dropSpaces cs else c :: cs

/-- Value of a digit character in the given base, if it is one. -/
def digitVal? (base : Nat) (c : Char) : Option Nat :=
  let v : Option Nat :=
    if 48 ≤ c.toNat ∧ c.toNat ≤ 57 then some (c.toNat - 48)
    else if 97 ≤ c.toNat ∧ c.toNat ≤ 122 then some (c.toNat - 87)
    else if 65 ≤ c.toNat ∧ c.toNat ≤ 90 then some (c.toNat - 55)
    else none
  match v with
  | some d => if d < base then some d else none
  | none => none

/-- Accumulate the longest run of digits of `base`; returns the value and
the number of digits consumed. -/
def digitsAcc (base : Nat) (acc : Nat) : List Char → Nat × Nat
  | [] => (acc, 0)
  | c :: cs =>
    match digitVal? base c with
    | some d =>
      let r := digitsAcc base (acc * base + d) cs
      (r.1, r.2 + 1)
    | none => (acc, 0)

/-- Shared front end of `strtol` and `strtoul` with base 0: whitespace,
optional sign, `0x`/`0X` hexadecimal or leading-`0` octal prefix, else
decimal. Returns the sign flag and the magnitude of the subject
sequence (magnitude 0 when no subject sequence is found). -/
def strtolScan (s : String) : Bool × Nat :=
  let cs := dropSpaces s.toList
  let p : Bool × List Char :=
    match cs with
    | '-' :: r => (true, r)
    | '+' :: r => (false, r)
    | _ => (false, cs)
  let m : Nat :=
    match p.2 with
    | '0' :: c :: r =>
      if c = 'x' || c = 'X' then (digitsAcc 16 0 r).1
      else (digitsAcc 8 0 ('0' :: c :: r)).1
    | l => (digitsAcc 10 0 l).1
  (p.1, m)

/-- C `strtol(s, NULL, 0)` on an LP64 platform: result clamped to the
64-bit signed range. -/
def strtol (s : String) : Int :=
  let p := strtolScan s
  let v : Int := if p.1 then -(p.2 : Int) else (p.2 : Int)
  if v < -(2 ^ 63) then -(2 ^ 63)
  else if v > 2 ^ 63 - 1 then 2 ^ 63 - 1
  else v

/-- C `strtoul(s, NULL, 0)` on an LP64 platform: `ULONG_MAX` when the
magnitude overflows, otherwise the (possibly negated) value modulo
`2 ^ 64`. -/
def strtoul (s : String) : Nat :=
  let p := strtolScan s
  if 2 ^ 64 ≤ p.2 then 2 ^ 64 - 1
  else if p.1 then (2 ^ 64 - p.2) % 2 ^ 64
  else p.2

/-- C `strtoll` coincides with `strtol` on LP64. -/
def strtoll (s : String) : Int := strtol s

/-- C `strtoull` coincides with `strtoul` on LP64. -/
def strtoull (s : String) : Nat := strtoul s

/-- Conversion of an integer to C `int`: modular wrap into
`[-2 ^ 31, 2 ^ 31)`. -/
def toCInt (v : Int) : Int := (v + 2 ^ 31) % 2 ^ 32 - 2 ^ 31

/-- Conversion of an integer to C `unsigned int`: value modulo `2 ^ 32`. -/
def toCUInt (v : Int) : Nat := (v % 2 ^ 32).toNat

/-- Conversion of an integer to C `short`: modular wrap into
`[-2 ^ 15, 2 ^ 15)`. -/
def toCShort (v : Int) : Int := (v + 2 ^ 15) % 2 ^ 16 - 2 ^ 15

/-- Longest run of decimal digits: value, digit count, rest. -/
def decDigits (acc : Nat) : List Char → Nat × Nat × List Char
  | [] => (acc, 0, [])
  | c :: cs =>
    if 48 ≤ c.toNat ∧ c.toNat ≤ 57 then
      let r := decDigits (acc * 10 + (c.toNat - 48)) cs
      (r.1, r.2.1 + 1, r.2.2)
    else (acc, 0, c :: cs)

/-- Optional sign: the negativity flag and the rest. -/
def readSign : List Char → Bool × List Char
  | '-' :: r => (true, r)
  | '+' :: r => (false, r)
  | cs => (false, cs)

/-- Decimal floating text (sign, integer part, optional fraction,
optional exponent) read exactly into `ℚ`, as `scanf`'s `%f` and `strtod`
read it; `none` when no conversion can be performed. Hexadecimal floats
and `inf`/`nan` forms are not modelled (no claim involves them). -/
def scanFloat (s : String) : Option ℚ :=
  let cs := dropSpaces s.toList
  let sg := readSign cs
  let ip := decDigits 0 sg.2
  let fr : Nat × Nat × List Char :=
    match ip.2.2 with
    | '.' :: r => decDigits 0 r
    | l => (0, 0, l)
  if ip.2.1 + fr.2.1 = 0 then none
  else
    let ex : Int :=
      match fr.2.2 with
      | c :: r =>
        if c = 'e' || c = 'E' then
          let es := readSign r
          let ed := decDigits 0 es.2
          if ed.2.1 = 0 then 0
          else if es.1 then -(ed.1 : Int) else (ed.1 : Int)
        else 0
      | [] => 0
    let mag : ℚ := ((ip.1 : ℚ) + (fr.1 : ℚ) / (10 : ℚ) ^ fr.2.1) * (10 : ℚ) ^ ex
    some (if sg.1 then -mag else mag)

/-- C `atof`: `strtod` value, `0` when no conversion can be performed. -/
def atof (s : String) : ℚ := (scanFloat s).getD 0

/-- One `%d` conversion: whitespace skip, optional sign, at least one
decimal digit, stored into a C `int`. Returns the value and the rest,
`none` on matching failure. -/
def scanPercentD (cs : List Char) : Option (Int × List Char) :=
  let ds := dropSpaces cs
  let sg := readSign ds
  let d := decDigits 0 sg.2
  if d.2.1 = 0 then none
  else some (toCInt (if sg.1 then -(d.1 : Int) else (d.1 : Int)), d.2.2)

/-- One literal-character directive of a `scanf` format. -/
def scanLit (c : Char) : List Char → Option (List Char)
  | d :: r => if d = c then some r else none
  | [] => none

/-- C `sscanf(s, "%d-%d-%d %d:%d:%d", ...)`: the six converted values
when all six conversions succeed, `none` otherwise (the source only
tests whether the return value equals 6). -/
def scanTimestampFields (s : String) : Option (Int × Int × Int × Int × Int × Int) :=
  match scanPercentD s.toList with
  | none => none
  | some (y, r1) =>
    match scanLit '-' r1 with
    | none => none
    | some r2 =>
      match scanPercentD r2 with
      | none => none
      | some (mo, r3) =>
        match scanLit '-' r3 with
        | none => none
        | some r4 =>
          match scanPercentD r4 with
          | none => none
          | some (d, r5) =>
            match scanPercentD r5 with
            | none => none
            | some (h, r6) =>
              match scanLit ':' r6 with
              | none => none
              | some r7 =>
                match scanPercentD r7 with
                | none => none
                | some (mi, r8) =>
                  match scanLit ':' r8 with
                  | none => none
                  | some r9 =>
                    match scanPercentD r9 with
                    | none => none
                    | some (sec, _) => some (y, mo, d, h, mi, sec)

/-- Days from 1970-01-01 of the civil date `(y, m, d)` (standard
era/year-of-era computation). -/
def daysFromCivil (y m d : Int) : Int :=
  let ya : Int := if m ≤ 2 then y - 1 else y
  let era : Int := (if 0 ≤ ya then ya else ya - 399) / 400
  let yoe : Int := ya - era * 400
  let mp : Int := (m + 9) % 12
  let doy : Int := (153 * mp + 2) / 5 + d - 1
  let doe : Int := yoe * 365 + yoe / 4 - yoe / 100 + doy
  era * 146097 + doe - 719468

/-- Model of `mktime` on the `tm` the source fills in: the epoch second
of the civil fields. The local time-zone offset applied by the real
`mktime` is not modelled; no claim depends on a successfully parsed
timestamp value. -/
def mkTimeCivil (y mo d h mi sec : Int) : Int :=
  86400 * daysFromCivil y mo d + 3600 * h + 60 * mi + sec

/-! Row typed accessors, cell level. Each function below is the body of
the column-index overload of the like-named `Row` method in
`src/mysql/sqlDatabase.h`, applied to the cell `row[i]`. -/

/-- Row::getInt(int), sqlDatabase.h:277-280:
`row[i] == nullptr ? 0 : strtol(row[i], nullptr, 0)`, returned as `int`. -/
def Row.getInt : Cell → Int
  | none => 0
  | some s => toCInt (strtol s)

/-- Row::getNullableInt(int), sqlDatabase.h:287-290. -/
def Row.getNullableInt : Cell → Option Int
  | none => none
  | some s => some (Row.getInt (some s))

/-- Row::getUnsignedInt(int), sqlDatabase.h:297-300:
`row[i] == nullptr ? 0 : strtoul(row[i], nullptr, 0)`, returned as
`unsigned int`. -/
def Row.getUnsignedInt : Cell → Nat
  | none => 0
  | some s => strtoul s % 2 ^ 32

/-- Row::getNullableUnsignedInt(int), sqlDatabase.h:307-310. -/
def Row.getNullableUnsignedInt : Cell → Option Nat
  | none => none
  | some s => some (Row.getUnsignedInt (some s))

/-- Row::getShort(int), sqlDatabase.h:317-320:
`row[i] == nullptr ? 0 : (short)strtol(row[i], nullptr, 0)`. -/
def Row.getShort : Cell → Int
  | none => 0
  | some s => toCShort (strtol s)

/-- Row::getNullableShort(int), sqlDatabase.h:327-330. -/
def Row.getNullableShort : Cell → Option Int
  | none => none
  | some s => some (Row.getShort (some s))

/-- Row::getUnsignedShort(int), sqlDatabase.h:337-340:
`row[i] == nullptr ? 0 : (unsigned short)strtoul(row[i], nullptr, 0)`. -/
def Row.getUnsignedShort : Cell → Nat
  | none => 0
  | some s => strtoul s % 2 ^ 16

/-- Row::getNullableUnsignedShort(int), sqlDatabase.h:347-350. -/
def Row.getNullableUnsignedShort : Cell → Option Nat
  | none => none
  | some s => some (Row.getUnsignedShort (some s))

/-- Row::getChar(int), sqlDatabase.h:357-360:
`row[i] == nullptr ? '\0' : (char)(row[i][0])`; on an empty C string
`row[i][0]` is the NUL terminator. -/
def Row.getChar : Cell → Char
  | none => Char.ofNat 0
  | some s => s.toList.headD (Char.ofNat 0)

/-- Row::getNullableChar(int), sqlDatabase.h:367-370, exactly as
written: `row[i] == nullptr ? getChar(i) : std::optional<char>()` — the
NULL branch yields the present default and the non-NULL branch yields
the absent value. -/
def Row.getNullableChar : Cell → Option Char
  | none => some (Row.getChar none)
  | some _ => none

/-- Row::getLongLong(int), sqlDatabase.h:377-382. -/
def Row.getLongLong : Cell → Int
  | none => 0
  | some s => strtoll s

/-- Row::getNullableLongLong(int), sqlDatabase.h:388-393. -/
def Row.getNullableLongLong : Cell → Option Int
  | none => none
  | some s => some (strtoll s)

/-- Row::getUnsignedLongLong(int), sqlDatabase.h:400-405. -/
def Row.getUnsignedLongLong : Cell → Nat
  | none => 0
  | some s => strtoull s

/-- Row::getNullableUnsignedLongLong(int), sqlDatabase.h:411-416. -/
def Row.getNullableUnsignedLongLong : Cell → Option Nat
  | none => none
  | some s => some (strtoull s)

/-- Row::getString(int), sqlDatabase.h:423-426: `return row[i];` with no
NULL guard — constructing `std::string` from the null pointer is
undefined, so the NULL cell has no defined result (`none`). -/
def Row.getString : Cell → Option String
  | none => none
  | some s => some s

/-- Row::getNullableString(int), sqlDatabase.h:432-435. -/
def Row.getNullableString : Cell → Option String
  | none => none
  | some s => some s

/-- Row::getFloat(int), sqlDatabase.h:442-449: `0` on NULL; otherwise
`sscanf(row[i], "%f", &f)` — when the conversion fails `f` is returned
uninitialized (indeterminate), modelled as `none`. -/
def Row.getFloat : Cell → Option ℚ
  | none => some 0
  | some s => scanFloat s

/-- Row::getNullableFloat(int), sqlDatabase.h:450-455. -/
def Row.getNullableFloat : Cell → Option (Option ℚ)
  | none => none
  | some s => some (Row.getFloat (some s))

/-- Row::getDouble(int), sqlDatabase.h:466-469: `return atof(row[i]);`
with no NULL guard — `atof` on the null pointer is undefined, so the
NULL cell has no defined result (`none`). -/
def Row.getDouble : Cell → Option ℚ
  | none => none
  | some s => some (atof s)

/-- Row::getNullableDouble(int), sqlDatabase.h:475-478. -/
def Row.getNullableDouble : Cell → Option ℚ
  | none => none
  | some s => some (atof s)

/-- Row::getTimestamp(int), sqlDatabase.h:481-495: `0` when the cell is
NULL or when `sscanf` does not convert all six fields; otherwise
`mktime` on the civil fields (the source writes `tm_mon - 1` and
`tm_year - 1900` into the struct that `mktime` reads back as
`tm_mon + 1` and `tm_year + 1900`). -/
def Row.getTimestamp : Cell → Int
  | none => 0
  | some s =>
    match scanTimestampFields s with
    | none => 0
    | some (y, mo, d, h, mi, sec) => mkTimeCivil y mo d h mi sec

/-- Row::getNullableTimestamp(int), sqlDatabase.h:501-504:
`row[i] == nullptr ? std::optional<time_t>() : getTimestamp(i)`. -/
def Row.getNullableTimestamp : Cell → Option Int
  | none => none
  | some s => some (Row.getTimestamp (some s))

/-- FieldException (sqlDatabase.h:85-89): the error carried by a failed
field-name lookup. -/
structure FieldException where
  message : String
deriving DecidableEq, Repr

/-- The `_Query` state the claims touch: the FieldIndex (declared column
names in result order, from which `setupFields` builds the name-to-index
map), the eagerly buffered records, and the forward cursor position
(sqlDatabase.h:152-198). -/
structure QueryState where
  fields : List String
  rows : List (List Cell)
  rowPosition : Nat
deriving DecidableEq, Repr

/-- First position of `f` in the declared column list. -/
def lookupIdx (f : String) : List String → Option Nat
  | [] => none
  | g :: rest => if g = f then some 0 else (lookupIdx f rest).map (· + 1)

/-- Modelled from the spec: `_Query::getIndexByField`'s body is not under
`src/` (declaration only, sqlDatabase.h:192). Per the spec it "performs
the FieldIndex lookup and fails with a field error if the name is
absent", FieldIndex being the mapping from column name to zero-based
position built once per executed query. -/
def QueryState.getIndexByField (q : QueryState) (field : String) : Except FieldException Nat :=
  match lookupIdx field q.fields with
  | some i => Except.ok i
  | none => Except.error ⟨"Unknown field: " ++ field⟩

/-- Modelled from the spec: `_Query::hasNextRow`'s body is not under
`src/`; the cursor has a next record while it has not passed the last
buffered one. -/
def QueryState.hasNextRow (q : QueryState) : Bool :=
  q.rowPosition < q.rows.length

/-- Modelled from the spec: `_Query::peekRow`'s body is not under `src/`;
it "returns the current record without advancing", leaving the query
state unchanged. -/
def QueryState.peekRow (q : QueryState) : Option (List Cell) × QueryState :=
  (q.rows.get? q.rowPosition, q)

/-- Modelled from the spec: `_Query::getRow`'s body is not under `src/`;
it returns the current record and advances the forward cursor. -/
def QueryState.getRow (q : QueryState) : Option (List Cell) × QueryState :=
  (q.rows.get? q.rowPosition, { q with rowPosition := q.rowPosition + 1 })

/-- Modelled from the spec: `_Query::skipRow`'s body is not under `src/`;
it advances the forward cursor and returns no value. -/
def QueryState.skipRow (q : QueryState) : QueryState :=
  { q with rowPosition := q.rowPosition + 1 }

/-- Modelled from the spec: `_Query::resetRowQueue`'s body is not under
`src/`; it "rewinds to the start". -/
def QueryState.resetRowQueue (q : QueryState) : QueryState :=
  { q with rowPosition := 0 }

/-- Modelled from the spec: `_Query::getFieldByIndex`'s body is not under
`src/`; per the spec it is the raw access to the buffered text of the
current record (empty when nothing is there to read). -/
def QueryState.getFieldByIndex (q : QueryState) (i : Nat) : String :=
  match ((q.rows.get? q.rowPosition).getD []).getD i none with
  | none => ""
  | some s => s

/-- The `Row` view (sqlDatabase.h:200-235): one buffered record plus the
back-reference to the owning query. -/
structure RowView where
  row : List Cell
  query : QueryState
deriving DecidableEq, Repr

/-- The cell `row[i]` of a row view. -/
def RowView.cellAt (r : RowView) (i : Nat) : Cell :=
  r.row.getD i none

/-- Row::getIndexByField (sqlDatabase.h:261-264): delegates to the owning
query. -/
def RowView.getIndexByField (r : RowView) (fieldName : String) : Except FieldException Nat :=
  r.query.getIndexByField fieldName

/-- Row::isFieldNull(int) (sqlDatabase.h:241-244). -/
def RowView.isFieldNull (r : RowView) (i : Nat) : Bool :=
  r.cellAt i = none

/-- Row::operator[](int) (sqlDatabase.h:252-255): `return row[fieldIndex];`
with no NULL guard — the NULL cell has no defined result. -/
def RowView.subscriptIndex (r : RowView) (i : Nat) : Option String :=
  r.cellAt i

/-- Row::operator[](const std::string&) (sqlDatabase.h:256-260): resolves
the name through the owning query, then
`row[index] ? row[index] : ""`. -/
def RowView.subscriptField (r : RowView) (fieldName : String) : Except FieldException String :=
  (r.getIndexByField fieldName).map fun i =>
    match r.cellAt i with
    | none => ""
    | some s => s

/-- Row::getFieldByIndex (sqlDatabase.h:265-270): the literal `"NULL"`
when the cell is the null pointer, otherwise the owning query's raw
access. -/
def RowView.getFieldByIndex (r : RowView) (i : Nat) : String :=
  match r.cellAt i with
  | none => "NULL"
  | some _ => r.query.getFieldByIndex i

/-- Row::getNullableUnsignedInt(const std::string&) (sqlDatabase.h:302-305),
exactly as written: `return getNullableInt(getIndexByField(field));` —
the `std::optional<int>` is converted element-wise to
`std::optional<unsigned int>` at the return. -/
def RowView.getNullableUnsignedIntByField (r : RowView) (field : String) : Except FieldException (Option Nat) :=
  (r.getIndexByField field).map fun i => (Row.getNullableInt (r.cellAt i)).map toCUInt

/-- Row::getNullableUnsignedInt(int) applied through a row view
(sqlDatabase.h:307-310). -/
def RowView.getNullableUnsignedIntAt (r : RowView) (i : Nat) : Option Nat :=
  Row.getNullableUnsignedInt (r.cellAt i)

/-- Signed value of the subject sequence `strtol` finds in `s`, before
clamping. -/
def signedScanVal (s : String) : Int :=
  let p := strtolScan s
  if p.1 then -(p.2 : Int) else (p.2 : Int)

/-- Whether a cell is NULL or holds text whose `strtol` subject value
fits the signed 64-bit range, so that no clamping divergence between the
signed and unsigned parses can occur. -/
def cellInSignedRange : Cell → Bool
  | none => true
  | some s => decide (-(2 ^ 63) ≤ signedScanVal s ∧ signedScanVal s < 2 ^ 63)

/-- QueryException (sqlDatabase.h:58-83): `message`, the saved server
error text, and the saved server error number. -/
structure QueryExceptionState where
  message : String
  errorMessage : String
  err : Int
deriving DecidableEq, Repr

/-- QueryException's constructor (sqlDatabase.h:62-79). The `MYSQL *`
handle is modelled as `Option (Nat × String)` carrying `mysql_errno` and
`mysql_error`; the optional `queryBuffer` as `Option String`. With no
handle only `err := -1` is assigned and `errorMessage` keeps its
default-constructed empty value. -/
def QueryExceptionState.make (message : String) (mysql : Option (Nat × String))
    (queryBuffer : Option String) : QueryExceptionState :=
  match mysql with
  | some (e, etext) =>
    { message := message ++ "\n" ++ etext ++ ". " ++ " (#" ++ toString e ++ ")" ++ "\n" ++
        (match queryBuffer with
         | some qb => "Original query: " ++ qb
         | none => "")
      errorMessage := etext
      err := (e : Int) }
  | none => { message := message, errorMessage := "", err := -1 }

/-- One statement the batch engine transmitted to the Connection: the
SQL text, the number of tuples it carried (the tuples pending at the
moment of the flush), and whether the flush was triggered automatically
by `endEntry` reaching the threshold. -/
structure SentStatement where
  text : String
  tuples : Nat
  automatic : Bool
deriving DecidableEq, Repr

/-- Modelled from the spec: `BatchInsertStatement`'s method bodies are
not under `src/` (declarations only, sqlDatabase.h:96-134, whose member
list — `numberOfInserts`, `insertsPerFlush`, `numberOfFieldsLoaded`,
`tableName`, `header`, `sql`, `firstFieldThisEntry`, `firstField`,
`hasStarted` — this state mirrors). The spec fixes the behaviour:
column list frozen at `start` with the header
`INSERT [IGNORE] INTO table (cols) VALUES` emitted once; `beginEntry`
emits comma versus opening parenthesis depending on position; `endEntry`
closes the tuple, increments the completed-entry count and triggers an
automatic flush exactly when the count reaches the threshold; `flush`
transmits header plus accumulated tuples and clears only the tuple
buffer; `finish` flushes any remaining partial batch. The Connection is
modelled by the `sent` transcript. -/
structure BatchInsertStatement where
  numberOfInserts : Nat
  insertsPerFlush : Nat
  numberOfFieldsLoaded : Nat
  tableName : String
  insertIgnore : Bool
  fieldList : List String
  header : String
  sql : String
  firstFieldThisEntry : Bool
  firstField : Bool
  hasStarted : Bool
  sent : List SentStatement
deriving DecidableEq, Repr

/-- Modelled from the spec: construction binds the Connection, table
name, flush threshold and the optional INSERT IGNORE flag. -/
def BatchInsertStatement.init (tableName : String) (insertsPerFlush : Nat)
    (insertIgnore : Bool) : BatchInsertStatement :=
  { numberOfInserts := 0
    insertsPerFlush := insertsPerFlush
    numberOfFieldsLoaded := 0
    tableName := tableName
    insertIgnore := insertIgnore
    fieldList := []
    header := ""
    sql := ""
    firstFieldThisEntry := true
    firstField := true
    hasStarted := false
    sent := [] }

/-- Modelled from the spec: `addField` is legal only before `start` and
appends to the declared column list. -/
def BatchInsertStatement.addField (b : BatchInsertStatement) (field : String) : BatchInsertStatement :=
  if b.hasStarted then b
  else { b with
    fieldList := b.fieldList ++ [field]
    numberOfFieldsLoaded := b.numberOfFieldsLoaded + 1 }

/-- Modelled from the spec: `start` is idempotent-guarded; it freezes the
columns and emits the header
`INSERT [IGNORE] INTO table (c1,c2,...) VALUES` once. -/
def BatchInsertStatement.start (b : BatchInsertStatement) : BatchInsertStatement :=
  if b.hasStarted then b
  else { b with
    hasStarted := true
    header := "INSERT " ++ (if b.insertIgnore then "IGNORE " else "") ++ "INTO " ++
      b.tableName ++ " (" ++ String.intercalate "," b.fieldList ++ ") VALUES" }

/-- Modelled from the spec: `flush` transmits the header plus the
accumulated tuples to the Connection and clears only the tuple buffer,
so subsequent entries continue the same logical statement stream;
nothing is transmitted when no tuple is pending (`finish` flushes only a
"remaining partial batch"). -/
def BatchInsertStatement.flushAs (automatic : Bool) (b : BatchInsertStatement) : BatchInsertStatement :=
  if b.numberOfInserts = 0 then b
  else { b with
    sent := b.sent ++ [⟨b.header ++ b.sql, b.numberOfInserts, automatic⟩]
    sql := ""
    numberOfInserts := 0
    firstField := true }

/-- Modelled from the spec: the public `flush`. -/
def BatchInsertStatement.flush (b : BatchInsertStatement) : BatchInsertStatement :=
  BatchInsertStatement.flushAs false b

/-- Modelled from the spec: `beginEntry` brackets a new tuple, emitting
the correct separator (comma versus opening parenthesis depending on
position). -/
def BatchInsertStatement.beginEntry (b : BatchInsertStatement) : BatchInsertStatement :=
  { b with
    sql := b.sql ++ (if b.firstField then " (" else ",(")
    firstField := false
    firstFieldThisEntry := true }

/-- Modelled from the spec: a value write appends one rendered literal to
the current tuple, tracking whether a separating comma is needed. -/
def BatchInsertStatement.putLiteral (b : BatchInsertStatement) (lit : String) : BatchInsertStatement :=
  { b with
    sql := b.sql ++ (if b.firstFieldThisEntry then "" else ",") ++ lit
    firstFieldThisEntry := false }

/-- Modelled from the spec: `putInt` renders the integer literal. -/
def BatchInsertStatement.putInt (b : BatchInsertStatement) (v : Int) : BatchInsertStatement :=
  BatchInsertStatement.putLiteral b (toString v)

/-- Modelled from the spec: `endEntry` closes the tuple and increments
the completed-entry count, triggering an automatic flush exactly when
the count reaches the configured threshold. -/
def BatchInsertStatement.endEntry (b : BatchInsertStatement) : BatchInsertStatement :=
  let b := { b with sql := b.sql ++ ")", numberOfInserts := b.numberOfInserts + 1 }
  if b.numberOfInserts = b.insertsPerFlush then BatchInsertStatement.flushAs true b else b

/-- Modelled from the spec: `finish` flushes any remaining partial batch
and closes the statement. -/
def BatchInsertStatement.finish (b : BatchInsertStatement) : BatchInsertStatement :=
  BatchInsertStatement.flushAs false b

/-- One complete entry writing the two values `(v1,v2)`. -/
def BatchInsertStatement.entry2 (b : BatchInsertStatement) (v1 v2 : Int) : BatchInsertStatement :=
  (((b.beginEntry).putInt v1).putInt v2).endEntry

/-- The spec's flush-threshold scenario: threshold 2, two declared
columns, three completed entries, then `finish`. -/
def batchScenario : BatchInsertStatement :=
  (((((BatchInsertStatement.init "t" 2 false).addField "a").addField "b").start.entry2 1 2).entry2 3 4).entry2 5 6 |>.finish

/-- Number of automatic flushes in the transcript. -/
def autoFlushCount (b : BatchInsertStatement) : Nat :=
  (b.sent.filter (·.automatic)).length

/-- Number of flushes performed by `finish` or explicit `flush`. -/
def manualFlushCount (b : BatchInsertStatement) : Nat :=
  (b.sent.filter (fun st => !st.automatic)).length

/-! Concrete inputs used by witnesses and counterexamples. -/

/-- A two-column query with one buffered record. -/
def sampleQuery : QueryState :=
  ⟨["id", "name"], [[some "42", none]], 0⟩

/-- A row of `sampleQuery`. -/
def sampleRow : RowView :=
  ⟨[some "42", none], sampleQuery⟩

/-- A one-column query whose single cell holds the decimal text for
`2 ^ 63`, out of the signed 64-bit range. -/
def overflowRow : RowView :=
  ⟨[some "9223372036854775808"], ⟨["n"], [[some "9223372036854775808"]], 0⟩⟩

/-! Helper lemmas about the field-index lookup. -/

theorem lookupIdx_none_iff (f : String) (l : List String) :
    lookupIdx f l = none ↔ f ∉ l := by
  induction l with
  | nil => simp [lookupIdx]
  | cons g rest ih =>
    by_cases h : g = f
    · simp [lookupIdx, h]
    · simp [lookupIdx, h, Option.map_eq_none', ih, Ne.symm h]

theorem lookupIdx_get (f : String) (l : List String) (i : Nat)
    (h : lookupIdx f l = some i) : l.get? i = some f := by
  induction l generalizing i with
  | nil => simp [lookupIdx] at h
  | cons g rest ih =>
    by_cases hg : g = f
    · simp only [lookupIdx, if_pos hg] at h
      cases h
      simp [hg]
    · simp only [lookupIdx, if_neg hg] at h
      rcases Option.map_eq_some'.1 h with ⟨j, hj, hji⟩
      subst hji
      simpa using ih j hj

theorem lookupIdx_self (l : List String) (h : l.Nodup) (i : Nat) (hi : i < l.length) :
    lookupIdx (l.get ⟨i, hi⟩) l = some i := by
  induction l generalizing i with
  | nil => simp at hi
  | cons g rest ih =>
    rcases List.nodup_cons.1 h with ⟨hg, hrest⟩
    cases i with
    | zero => simp [lookupIdx]
    | succ j =>
      have hj : j < rest.length := Nat.lt_of_succ_lt_succ hi
      have hmem : rest.get ⟨j, hj⟩ ∈ rest := List.get_mem rest j hj
      have hne : ¬ g = rest.get ⟨j, hj⟩ := fun he => hg (he ▸ hmem)
      have hstep : (g :: rest).get ⟨j + 1, hi⟩ = rest.get ⟨j, hj⟩ := rfl
      rw [hstep]
      show (if g = rest.get ⟨j, hj⟩ then some 0
        else (lookupIdx (rest.get ⟨j, hj⟩) rest).map (· + 1)) = some (j + 1)
      rw [if_neg hne, ih hrest j hj]
      rfl

/-- Claim C1: of the eleven non-nullable typed accessors, nine (getInt,
getUnsignedInt, getShort, getUnsignedShort, getChar, getLongLong,
getUnsignedLongLong, getFloat, getTimestamp) do return their documented
zero/empty default on a SQL NULL cell, but getString and getDouble pass
the null pointer to `std::string`'s constructor and to `atof` with no
guard, so on a NULL cell they have no defined result at all — in
particular not the empty string and not `0.0`. This evaluates the
embedding at the NULL cell: the claim's guarantee fails for getString
and getDouble. -/
theorem nonNullable_null_defaults_eval :
    Row.getInt none = 0 ∧ Row.getUnsignedInt none = 0 ∧
    Row.getShort none = 0 ∧ Row.getUnsignedShort none = 0 ∧
    Row.getChar none = Char.ofNat 0 ∧ Row.getLongLong none = 0 ∧
    Row.getUnsignedLongLong none = 0 ∧ Row.getFloat none = some 0 ∧
    Row.getTimestamp none = 0 ∧
    Row.getString none = none ∧ Row.getString none ≠ some "" ∧
    Row.getDouble none = none ∧ Row.getDouble none ≠ some 0 := by
  refine ⟨rfl, rfl, rfl, rfl, rfl, rfl, rfl, rfl, rfl, rfl, ?_, rfl, ?_⟩
  · intro h
    simp [Row.getString] at h
  · intro h
    simp [Row.getDouble] at h

/-- Claim C2: getNullableChar's branches are inverted relative to the
claim and to every sibling nullable accessor — on a SQL NULL cell it
returns the present value `'\0'` (the result of getChar on the NULL
cell), and on every non-NULL cell it returns the absent value, never the
parsed character. This evaluates the embedding at the cell `"a"` and at
the NULL cell. -/
theorem getNullableChar_inverted_eval :
    Row.getNullableChar (some "a") = none ∧
    Row.getNullableChar (some "a") ≠ some 'a' ∧
    Row.getNullableChar none = some (Char.ofNat 0) ∧
    Row.getNullableChar none ≠ none ∧
    (∀ s : String, Row.getNullableChar (some s) = none) := by
  refine ⟨rfl, ?_, rfl, ?_, fun s => rfl⟩
  · intro h
    simp [Row.getNullableChar] at h
  · intro h
    simp [Row.getNullableChar] at h

/-- Claim C3: the field-name form of getNullableUnsignedInt delegates to
the signed nullable parser (`strtol`, clamped to the signed 64-bit
range, truncated to `int`, then converted to `unsigned int`), while the
column-index form uses `strtoul`; on the cell `"9223372036854775808"`
(2^63) the name form yields `4294967295` and the index form yields `0`,
so the two forms do not agree. -/
theorem getNullableUnsignedInt_forms_diverge :
    overflowRow.getIndexByField "n" = Except.ok 0 ∧
    overflowRow.cellAt 0 = some "9223372036854775808" ∧
    overflowRow.getNullableUnsignedIntByField "n" = Except.ok (some 4294967295) ∧
    overflowRow.getNullableUnsignedIntAt 0 = some 0 ∧
    overflowRow.getNullableUnsignedIntByField "n" ≠
      Except.ok (overflowRow.getNullableUnsignedIntAt 0) := by
  have h1 : overflowRow.getNullableUnsignedIntByField "n" = Except.ok (some 4294967295) := by
    rfl
  have h2 : overflowRow.getNullableUnsignedIntAt 0 = some 0 := by decide
  refine ⟨rfl, rfl, h1, h2, ?_⟩
  rw [h1, h2]
  intro h
  have h3 := Except.ok.inj h
  simp at h3

/-- Claim C4 counterexample: on the malformed text `"bad"` the nullable
timestamp accessor does not return an absent value — it checks only for
the null pointer and so returns the present epoch-zero
`getTimestamp` result. -/
theorem getNullableTimestamp_malformed_present :
    Row.getNullableTimestamp (some "bad") = some 0 ∧
    Row.getNullableTimestamp (some "bad") ≠ none := by
  refine ⟨rfl, ?_⟩
  intro h
  rw [show Row.getNullableTimestamp (some "bad") = some 0 from rfl] at h
  simp at h

/-- Claim C4 as amended: text that does not match the fixed pattern
`YYYY-MM-DD HH:MM:SS` (all six `sscanf` conversions succeeding) yields
epoch-zero from getTimestamp and the PRESENT epoch-zero — not an absent
value — from getNullableTimestamp; an absent (SQL NULL) value yields
epoch-zero from getTimestamp and absent from getNullableTimestamp. -/
theorem timestamp_malformed_and_null (s : String)
    (h : scanTimestampFields s = none) :
    Row.getTimestamp none = 0 ∧
    Row.getNullableTimestamp none = none ∧
    Row.getTimestamp (some s) = 0 ∧
    Row.getNullableTimestamp (some s) = some 0 := by
  refine ⟨rfl, rfl, ?_, ?_⟩
  · simp [Row.getTimestamp, h]
  · simp [Row.getNullableTimestamp, Row.getTimestamp, h]

/-- Witness for the amended claim C4, at the concrete malformed text
`"bad"`. -/
theorem timestamp_malformed_and_null_witness :
    scanTimestampFields "bad" = none ∧
    (Row.getTimestamp none = 0 ∧
     Row.getNullableTimestamp none = none ∧
     Row.getTimestamp (some "bad") = 0 ∧
     Row.getNullableTimestamp (some "bad") = some 0) :=
  ⟨rfl, timestamp_malformed_and_null "bad" rfl⟩

/-- Claim C5 counterexample: with flush threshold 2, two declared
columns and three completed entries followed by `finish`, the batch
engine performs exactly ONE automatic flush (after entry 2), not the two
the claim states. -/
theorem batch_scenario_not_two_auto_flushes :
    autoFlushCount batchScenario = 1 ∧ autoFlushCount batchScenario ≠ 2 := by
  refine ⟨rfl, ?_⟩
  intro h
  rw [show autoFlushCount batchScenario = 1 from rfl] at h
  simp at h

/-- Claim C5 as amended: with flush threshold 2 and two declared
columns, three completed entries followed by `finish()` produce exactly
one automatic flush (after entry 2, carrying the two pending tuples)
and one flush on `finish()` (carrying entry 3's pending tuple), each
transmitted statement containing exactly the tuples pending at the
moment of that flush; and in general `endEntry` increments the
completed-entry count and triggers an automatic flush exactly when the
count reaches the configured threshold. -/
theorem batch_flush_behavior :
    autoFlushCount batchScenario = 1 ∧
    manualFlushCount batchScenario = 1 ∧
    batchScenario.sent =
      [⟨"INSERT INTO t (a,b) VALUES (1,2),(3,4)", 2, true⟩,
       ⟨"INSERT INTO t (a,b) VALUES (5,6)", 1, false⟩] ∧
    (∀ b : BatchInsertStatement,
      autoFlushCount b.endEntry =
        (if b.numberOfInserts + 1 = b.insertsPerFlush
         then autoFlushCount b + 1 else autoFlushCount b) ∧
      b.endEntry.numberOfInserts =
        (if b.numberOfInserts + 1 = b.insertsPerFlush
         then 0 else b.numberOfInserts + 1)) := by
  refine ⟨rfl, rfl, rfl, ?_⟩
  intro b
  by_cases hc : b.numberOfInserts + 1 = b.insertsPerFlush
  · have hnz : ¬ b.insertsPerFlush = 0 := by omega
    simp [BatchInsertStatement.endEntry, BatchInsertStatement.flushAs, autoFlushCount, hc, hnz,
      List.filter_append, List.filter]
  · simp [BatchInsertStatement.endEntry, BatchInsertStatement.flushAs, autoFlushCount, hc]

/-- Claim C6: on a query whose declared column names are distinct (the
FieldIndex is a map built per executed query), `getIndexByField` fails
with a FieldError exactly on unknown names, sends the name declared at
position `i` to `i`, is injective into the declared positions (an `ok i`
result forces the name to be the one declared at `i`), and the Row form
delegates to the owning query. -/
theorem getIndexByField_total_bijection (q : QueryState) (h : q.fields.Nodup) :
    (∀ f, f ∉ q.fields →
      q.getIndexByField f = Except.error ⟨"Unknown field: " ++ f⟩) ∧
    (∀ (i : Nat) (hi : i < q.fields.length),
      q.getIndexByField (q.fields.get ⟨i, hi⟩) = Except.ok i) ∧
    (∀ f i, q.getIndexByField f = Except.ok i → q.fields.get? i = some f) ∧
    (∀ (r : RowView) (f : String), r.query = q →
      r.getIndexByField f = q.getIndexByField f) := by
  refine ⟨?_, ?_, ?_, ?_⟩
  · intro f hf
    unfold QueryState.getIndexByField
    rw [(lookupIdx_none_iff f q.fields).2 hf]
  · intro i hi
    unfold QueryState.getIndexByField
    rw [lookupIdx_self q.fields h i hi]
  · intro f i hfi
    unfold QueryState.getIndexByField at hfi
    cases heq : lookupIdx f q.fields with
    | none => rw [heq] at hfi; cases hfi
    | some j =>
      rw [heq] at hfi
      cases hfi
      exact lookupIdx_get f q.fields i heq
  · intro r f hr
    simp [RowView.getIndexByField, hr]

/-- Witness for claim C6 at the concrete two-column query. -/
theorem getIndexByField_total_bijection_witness :
    sampleQuery.fields.Nodup ∧
    ((∀ f, f ∉ sampleQuery.fields →
       sampleQuery.getIndexByField f = Except.error ⟨"Unknown field: " ++ f⟩) ∧
     (∀ (i : Nat) (hi : i < sampleQuery.fields.length),
       sampleQuery.getIndexByField (sampleQuery.fields.get ⟨i, hi⟩) = Except.ok i) ∧
     (∀ f i, sampleQuery.getIndexByField f = Except.ok i →
       sampleQuery.fields.get? i = some f) ∧
     (∀ (r : RowView) (f : String), r.query = sampleQuery →
       r.getIndexByField f = sampleQuery.getIndexByField f)) :=
  ⟨by decide, getIndexByField_total_bijection sampleQuery (by decide)⟩

/-- Claim C7: on a query with at least one remaining buffered record,
`peekRow` returns the current record and leaves the query state
unchanged, the following `getRow` returns the identical record, and
`skipRow` advances the cursor by one without returning a value. -/
theorem peekRow_getRow_skipRow (q : QueryState) (h : q.hasNextRow = true) :
    q.peekRow.2 = q ∧
    (∃ rec, q.peekRow.1 = some rec ∧ (q.peekRow.2.getRow).1 = some rec) ∧
    q.skipRow.rowPosition = q.rowPosition + 1 := by
  have hlt : q.rowPosition < q.rows.length := by
    simpa [QueryState.hasNextRow] using h
  refine ⟨rfl, ?_, rfl⟩
  rcases List.get?_eq_get hlt with hget
  exact ⟨q.rows.get ⟨q.rowPosition, hlt⟩, hget, hget⟩

/-- Witness for claim C7 at the concrete one-record query. -/
theorem peekRow_getRow_skipRow_witness :
    sampleQuery.hasNextRow = true ∧
    (sampleQuery.peekRow.2 = sampleQuery ∧
     (∃ rec, sampleQuery.peekRow.1 = some rec ∧
       (sampleQuery.peekRow.2.getRow).1 = some rec) ∧
     sampleQuery.skipRow.rowPosition = sampleQuery.rowPosition + 1) :=
  ⟨by decide, peekRow_getRow_skipRow sampleQuery (by decide)⟩

/-- Claim C8: when the cell at a valid column index is SQL NULL,
Row::getFieldByIndex returns the literal string `"NULL"` instead of the
buffered field text. -/
theorem getFieldByIndex_null_literal (r : RowView) (i : Nat)
    (h : r.cellAt i = none) : r.getFieldByIndex i = "NULL" := by
  simp [RowView.getFieldByIndex, h]

/-- Witness for claim C8 at the concrete row whose second cell is SQL
NULL. -/
theorem getFieldByIndex_null_literal_witness :
    sampleRow.cellAt 1 = none ∧ sampleRow.getFieldByIndex 1 = "NULL" :=
  ⟨rfl, getFieldByIndex_null_literal sampleRow 1 rfl⟩

/-- Claim C9: for a field name resolving to index `i`, the string-keyed
subscript returns the empty string on a SQL NULL cell while the
integer-keyed subscript performs no NULL guard (its NULL result is
undefined); on every non-NULL cell the two forms agree on the buffered
text. -/
theorem subscript_forms_null_guard (r : RowView) (f : String) (i : Nat)
    (hidx : r.getIndexByField f = Except.ok i) :
    (r.cellAt i = none →
      r.subscriptField f = Except.ok "" ∧ r.subscriptIndex i = none) ∧
    (∀ s, r.cellAt i = some s →
      r.subscriptField f = Except.ok s ∧ r.subscriptIndex i = some s) := by
  constructor
  · intro hc
    constructor
    · simp [RowView.subscriptField, Except.map, hidx, hc]
    · simp [RowView.subscriptIndex, hc]
  · intro s hc
    constructor
    · simp [RowView.subscriptField, Except.map, hidx, hc]
    · simp [RowView.subscriptIndex, hc]

/-- Witness for claim C9 at the concrete row: `"name"` resolves to the
NULL cell at index 1. -/
theorem subscript_forms_null_guard_witness :
    sampleRow.getIndexByField "name" = Except.ok 1 ∧
    ((sampleRow.cellAt 1 = none →
       sampleRow.subscriptField "name" = Except.ok "" ∧
       sampleRow.subscriptIndex 1 = none) ∧
     (∀ s, sampleRow.cellAt 1 = some s →
       sampleRow.subscriptField "name" = Except.ok s ∧
       sampleRow.subscriptIndex 1 = some s)) :=
  ⟨rfl, subscript_forms_null_guard sampleRow "name" 1 rfl⟩

/-- Claim C10: a QueryException built without a server handle stores
`-1` as the server error number and the empty string as the server
error text; with a handle, the stored message is the caller's message
followed by the server error text, the error number, and — when the
offending statement is supplied — `Original query: ` plus that
statement. -/
theorem queryException_fields :
    (∀ m qb, QueryExceptionState.make m none qb =
      { message := m, errorMessage := "", err := -1 }) ∧
    (∀ m (e : Nat) t qtext, (QueryExceptionState.make m (some (e, t)) (some qtext)).message =
      m ++ "\n" ++ t ++ ". " ++ " (#" ++ toString e ++ ")" ++ "\n" ++
        ("Original query: " ++ qtext)) ∧
    (∀ m (e : Nat) t, (QueryExceptionState.make m (some (e, t)) none).message =
      m ++ "\n" ++ t ++ ". " ++ " (#" ++ toString e ++ ")" ++ "\n") ∧
    (∀ m (e : Nat) t qb, (QueryExceptionState.make m (some (e, t)) qb).errorMessage = t ∧
      (QueryExceptionState.make m (some (e, t)) qb).err = e) := by
  refine ⟨fun m qb => rfl, fun m e t qtext => rfl, fun m e t => ?_, fun m e t qb => ⟨rfl, rfl⟩⟩
  show m ++ "\n" ++ t ++ ". " ++ " (#" ++ toString e ++ ")" ++ "\n" ++ "" =
    m ++ "\n" ++ t ++ ". " ++ " (#" ++ toString e ++ ")" ++ "\n"
  rw [String.append_empty]

end sql
